import Mathlib

/-!
Shallow embedding of `src/step2-with-script/read_csv.py`, a four-call
pipeline: check that `sample_data.csv` exists, read it with
`pandas.read_csv`, print shape / columns / `head()` / `describe()`.

Modelling decisions (the script delegates to the pandas library, so the
library's documented behavior is embedded where a claim depends on it):
* The filesystem is a map from path to `Option FSEntry`; `FSEntry.dir`
  stands for any entry that is not a regular file.  `os.path.exists`
  is true whenever the entry is present, regular file or not.
* CSV text: records are newline-separated, fields comma-separated;
  blank lines are skipped (pandas `skip_blank_lines=True`).  Quoting,
  `\r\n` endings and encodings are not modelled (no claim uses them).
* A cell is missing when it is the empty string (pandas reads it as NaN).
  A column is numeric when every non-missing cell parses as a decimal
  number (optional sign, digits, optional fractional part); scientific
  notation, inf/nan literals and bool inference are not modelled.
* The column count `read_csv` expects is the header's width plus the
  index columns it infers implicitly: when the first data row is wider
  than the header, the extra leading fields of every row form the row
  index (so a file such as `a,b` / `1,2,3` / `4,5,6` parses fine, its
  first column becoming the index and not a data column).  A data row
  wider than that expected count raises `ParserError`; narrower rows
  are padded with missing values.  An entirely empty file raises
  `EmptyDataError`.  An uncaught exception terminates the Python
  process with exit code 1 and writes the traceback to stderr.
* `describe()` with default arguments summarizes the numeric columns;
  when the frame has no numeric column it falls back to describing
  every column (object statistics).  Only the presence of a column in
  the output and its count/mean are observable through the claims, so
  the summary record carries those; std/quartiles and the object
  unique/top/freq fields, as well as pandas' exact text layout of the
  `head()` and `describe()` tables, are abstracted in the renderer.
* Standard output is modelled as the list of printed lines, each `print`
  contributing its text split at embedded newlines; the trailing newline
  every `print` appends is implicit in the list-of-lines view.
-/

namespace ReadCsv

/-- A filesystem entry: a regular file with its text content, or any
non-regular-file entry (directory etc.). -/
inductive FSEntry : Type
  | file (content : String)
  | dir
deriving DecidableEq

/-- A filesystem: what (if anything) sits at each path. -/
def FileSystem : Type := String → Option FSEntry

/-- The existence check `os.path.exists`: true whenever anything exists
at the path, regular file or directory alike. -/
def osPathExists (fs : FileSystem) (p : String) : Bool :=
  (fs p).isSome

/-- Whether the entry at a path is a regular file. -/
def isRegularFile : Option FSEntry → Bool
  | some (FSEntry.file _) => true
  | _ => false

/-- The hard-coded input path of the script. -/
def csvFile : String := "sample_data.csv"

/-- Split a character list at every occurrence of `sep`
(`str.split` semantics: `n+1` pieces for `n` separators). -/
def splitOnChar (sep : Char) : List Char → List (List Char)
  | [] => [[]]
  | c :: cs =>
    match splitOnChar sep cs with
    | [] => if c = sep then [[], [c]] else [[c]]
    | h :: t => if c = sep then [] :: h :: t else (c :: h) :: t

/-- The records of a CSV text: newline-separated lines with blank lines
dropped (pandas `skip_blank_lines` default). -/
def csvLines (c : String) : List String :=
  ((splitOnChar (Char.ofNat 10) c.data).map String.mk).filter (fun l => l ≠ "")

/-- The comma-separated fields of one record. -/
def fieldsOf (l : String) : List String :=
  (splitOnChar (Char.ofNat 44) l.data).map String.mk

/-- Numeric value of a digit run, most significant first. -/
def digitsVal (cs : List Char) : Nat :=
  cs.foldl (fun a c => 10 * a + (c.toNat - 48)) 0

/-- Ten to the `n` by plain recursion (kernel-friendly power). -/
def pow10 : Nat → Nat
  | 0 => 1
  | n + 1 => 10 * pow10 n

/-- Exact rational addition, written through `mkRat` so that concrete
instances evaluate inside the kernel; proved equal to `+` on `ℚ` in
`ratAdd_eq` below. -/
def ratAdd (a b : ℚ) : ℚ :=
  mkRat (a.num * b.den + b.num * a.den) (a.den * b.den)

/-- Exact rational negation through `mkRat`; equals `-a` (`ratNeg_eq`). -/
def ratNeg (a : ℚ) : ℚ :=
  mkRat (-a.num) a.den

/-- Exact division of a rational by a natural through `mkRat`; equals
`a / n` (`ratDivNat_eq`). -/
def ratDivNat (a : ℚ) (n : Nat) : ℚ :=
  mkRat a.num (a.den * n)

/-- Parse an unsigned decimal literal (`12`, `12.5`, `12.`, `.5`). -/
def parseRatAux (cs : List Char) : Option ℚ :=
  match splitOnChar (Char.ofNat 46) cs with
  | [i] =>
    if i ≠ [] ∧ i.all Char.isDigit then some (mkRat (digitsVal i) 1) else none
  | [i, f] =>
    if (i ++ f) ≠ [] ∧ (i ++ f).all Char.isDigit then
      some (mkRat (digitsVal i * pow10 f.length + digitsVal f) (pow10 f.length))
    else none
  | _ => none

/-- Parse a cell as a number, Python-float style with optional sign. -/
def parseRat (s : String) : Option ℚ :=
  match s.data with
  | '-' :: rest => (parseRatAux rest).map ratNeg
  | '+' :: rest => parseRatAux rest
  | cs => parseRatAux cs

/-- A missing cell: pandas reads the empty field as NaN. -/
def isMissing (s : String) : Bool := s = ""

/-- The in-memory table: header names and data rows, every row padded
to the header's width. -/
structure Table : Type where
  header : List String
  rows : List (List String)
deriving DecidableEq

/-- The two load failures of `pandas.read_csv` relevant here. -/
inductive LoadError : Type
  | emptyData
  | parseError
deriving DecidableEq

/-- Pad a row on the right with missing cells up to width `n`. -/
def padTo (n : Nat) (xs : List String) : List String :=
  xs ++ List.replicate (n - xs.length) ""

/-- How many implicit index columns `read_csv` infers: the number of
fields by which the first data row exceeds the header (zero when there
are no data rows or the first one is not wider). -/
def inferIndexCount (hlen : Nat) : List String → Nat
  | [] => 0
  | r :: _ => (fieldsOf r).length - hlen

/-- The parse step `pandas.read_csv`: first record is the header; when
the first data row is wider than the header, the extra leading fields
of each row are the implicit row index, dropped from the data columns;
a data row wider than header plus index raises `ParserError`; narrower
rows are NaN-padded; an empty file raises `EmptyDataError`. -/
def load (c : String) : Except LoadError Table :=
  match csvLines c with
  | [] => Except.error LoadError.emptyData
  | h :: rs =>
    let H := fieldsOf h
    let k := inferIndexCount H.length rs
    if rs.any (fun r => H.length + k < (fieldsOf r).length) then
      Except.error LoadError.parseError
    else
      Except.ok ⟨H, rs.map (fun r => (padTo (H.length + k) (fieldsOf r)).drop k)⟩

/-- The cells of column `j`, top to bottom. -/
def colCells (t : Table) (j : Nat) : List String :=
  t.rows.map (fun r => r.getD j "")

/-- A cell is acceptable in a numeric column when missing or numeric. -/
def cellNumericOK (s : String) : Bool :=
  isMissing s || (parseRat s).isSome

/-- Column dtype inference: numeric iff every non-missing cell parses
as a number (an all-missing column is float64, hence numeric). -/
def colIsNumeric (t : Table) (j : Nat) : Bool :=
  (colCells t j).all cellNumericOK

/-- Count of non-missing cells in a column (`describe`'s `count`). -/
def colCount (t : Table) (j : Nat) : Nat :=
  ((colCells t j).filter (fun s => !isMissing s)).length

/-- The parsed numeric values of a column's cells. -/
def colVals (t : Table) (j : Nat) : List ℚ :=
  (colCells t j).filterMap parseRat

/-- Sum of a column's parsed values (exact rational arithmetic). -/
def colSum (t : Table) (j : Nat) : ℚ :=
  (colVals t j).foldl ratAdd (mkRat 0 1)

/-- Mean of a numeric column over its non-missing cells; `none` is NaN
(empty column). -/
def colMean (t : Table) (j : Nat) : Option ℚ :=
  if (colVals t j).length = 0 then none
  else some (ratDivNat (colSum t j) (colVals t j).length)

/-- One column's entry in the `describe()` output: a numeric summary
(count, mean; further moments abstracted) or an object summary
(count; unique/top/freq abstracted). -/
inductive StatEntry : Type
  | numeric (count : Nat) (mean : Option ℚ)
  | object (count : Nat)
deriving DecidableEq

/-- The statistics step `DataFrame.describe()` with default arguments: summaries of the
numeric columns; when no column is numeric, fall back to object
summaries of every column. -/
def describe (t : Table) : List (String × StatEntry) :=
  let idx := List.range t.header.length
  if idx.any (colIsNumeric t) then
    (idx.filter (colIsNumeric t)).map
      (fun j => (t.header.getD j "", StatEntry.numeric (colCount t j) (colMean t j)))
  else
    idx.map (fun j => (t.header.getD j "", StatEntry.object (colCount t j)))

/-- The column names carrying an entry in the statistics block. -/
def statsNames (t : Table) : List String :=
  (describe t).map Prod.fst

/-- Everything the script prints about a loaded table. -/
structure Report : Type where
  shape : Nat × Nat
  columns : List String
  preview : List (List String)
  statistics : List (String × StatEntry)
deriving DecidableEq

/-- The pure summary step: shape (`df.shape`), columns (`df.columns`),
preview (`df.head()`, first 5 rows) and statistics (`df.describe()`). -/
def summarize (t : Table) : Report :=
  ⟨(t.rows.length, t.header.length), t.header, t.rows.take 5, describe t⟩

/-- Text of a mean: `NaN` for an empty column, else `num/den`. -/
def ratText : Option ℚ → String
  | none => "NaN"
  | some q => toString q.num ++ "/" ++ toString q.den

/-- One statistics line (pandas' tabular layout abstracted to one line
per column). -/
def statLine : String × StatEntry → String
  | (name, StatEntry.numeric c m) =>
    name ++ ": count " ++ toString c ++ " mean " ++ ratText m
  | (name, StatEntry.object c) => name ++ ": count " ++ toString c

/-- The text the script prints for a loaded table, as a list of lines:
the shape line (preceded by a blank line, since the script prints a
leading newline before it), the columns line, the preview block and the
statistics block, in that fixed order.  Pandas' exact table layout
(alignment, index column, quoting in the Python list repr) is
abstracted; the line structure is kept. -/
def renderReport (r : Report) : List String :=
  ["", s!"Dataset shape: ({r.shape.1}, {r.shape.2})",
   "Columns: [" ++ String.intercalate ", " r.columns ++ "]",
   "", "First 5 rows:"]
  ++ r.preview.map (String.intercalate ", ")
  ++ ["", "Basic statistics:"]
  ++ r.statistics.map statLine

/-- Outcome of one run: the lines printed to standard output and the
process exit code. -/
structure RunResult : Type where
  stdout : List String
  exitCode : Nat
deriving DecidableEq

/-- The whole script (`main()` plus Python's process semantics): check
`os.path.exists`, report and return normally when nothing is there;
otherwise print the `Reading ...` line and read the CSV.  An uncaught
exception from `pandas.read_csv` — directory at the path, empty file or
malformed rows — terminates the Python process with exit code 1 (its
traceback goes to stderr, not stdout); a successful parse prints the
report and the process exits with code 0. -/
def main (fs : FileSystem) : RunResult :=
  match fs csvFile with
  | none => ⟨[s!"Error: {csvFile} not found!"], 0⟩
  | some FSEntry.dir => ⟨[s!"Reading {csvFile}..."], 1⟩
  | some (FSEntry.file c) =>
    match load c with
    | Except.error _ => ⟨[s!"Reading {csvFile}..."], 1⟩
    | Except.ok t => ⟨s!"Reading {csvFile}..." :: renderReport (summarize t), 0⟩

end ReadCsv

deriving instance DecidableEq for Except

namespace ReadCsv

/-- A filesystem with nothing at any path. -/
def fsEmpty : FileSystem := fun _ => none

/-- A filesystem with exactly one regular file, at the script's
hard-coded path, holding the given text. -/
def mkFs (c : String) : FileSystem :=
  fun p => if p = csvFile then some (FSEntry.file c) else none

/-- A filesystem with a directory at every path. -/
def fsDir : FileSystem := fun _ => some FSEntry.dir

/-- Scenario B input: header `a,b,c`, rows `1,2,3` and `4,5,6`. -/
def content6 : String := "a,b,c\n1,2,3\n4,5,6"

/-- The table Scenario B loads to. -/
def table6 : Table := ⟨["a", "b", "c"], [["1", "2", "3"], ["4", "5", "6"]]⟩

/-- An input in which no column is entirely numeric. -/
def contentC2 : String := "a,b\nx,y"

/-- The table `contentC2` loads to. -/
def tableC2 : Table := ⟨["a", "b"], [["x", "y"]]⟩

/-- A malformed input: the last data row is wider than the expected
column count (the header's width here, no index being inferred since
the first data row is not wider than the header). -/
def contentBad : String := "a,b\n1,2\n3,4,5"

/-- An input whose first data row is one field wider than the header:
pandas parses it, taking each row's first field as the implicit row
index. -/
def contentIdx : String := "a,b\n1,2,3\n4,5,6"

/-- The table `contentIdx` loads to: the leading index fields are not
data columns. -/
def tableIdx : Table := ⟨["a", "b"], [["2", "3"], ["5", "6"]]⟩

/-- A small well-formed input. -/
def contentC8 : String := "a,b\n1,2"

/-- The table `contentC8` loads to. -/
def tableC8 : Table := ⟨["a", "b"], [["1", "2"]]⟩

/-- The property claim C2 asserts of every loaded table: a column name
appears in the statistics block exactly when the column is entirely
numeric. -/
def statsExactlyNumericCols (t : Table) : Prop :=
  ∀ j < t.header.length,
    (t.header.getD j "" ∈ statsNames t ↔ colIsNumeric t j = true)

/-! Faithfulness of the kernel-friendly rational arithmetic: the
`mkRat`-based operations used in the embedding agree with the field
operations of `ℚ`. -/

/-- Addition through `mkRat` is addition on `ℚ`. -/
theorem ratAdd_eq (a b : ℚ) : ratAdd a b = a + b := by
  rw [ratAdd, Rat.mkRat_eq_divInt]
  conv_rhs => rw [← Rat.num_divInt_den a, ← Rat.num_divInt_den b]
  rw [Rat.divInt_add_divInt _ _ (Int.natCast_ne_zero.mpr a.den_nz)
    (Int.natCast_ne_zero.mpr b.den_nz)]
  push_cast
  ring_nf

/-- Negation through `mkRat` is negation on `ℚ`. -/
theorem ratNeg_eq (a : ℚ) : ratNeg a = -a := by
  rw [ratNeg, Rat.mkRat_eq_divInt, ← Rat.neg_divInt, Rat.num_divInt_den]

/-- Division by a natural through `mkRat` is division on `ℚ`. -/
theorem ratDivNat_eq (a : ℚ) (n : Nat) : ratDivNat a n = a / n := by
  rw [ratDivNat, Rat.mkRat_eq_div]
  rcases Nat.eq_zero_or_pos n with h | h
  · subst h; simp
  · conv_rhs => rw [← Rat.num_div_den a]
    push_cast
    rw [div_div]

/-- Padding a row that already has the right width changes nothing. -/
theorem padTo_eq_self (n : Nat) (xs : List String) (h : xs.length = n) :
    padTo n xs = xs := by
  rw [padTo, ← h, Nat.sub_self, List.replicate_zero, List.append_nil]

/-- Reading every position of a list back in order gives the list. -/
theorem map_getD_range (l : List String) :
    (List.range l.length).map (fun j => l.getD j "") = l := by
  induction l with
  | nil => rfl
  | cons a l ih =>
    rw [List.length_cons, List.range_succ_eq_map, List.map_cons, List.map_map]
    exact congrArg (List.cons a) ih

/-- On a uniform-width input — every data row as wide as the header —
the load step succeeds and keeps header and rows as split. -/
theorem load_of_uniform (c hdr : String) (rs : List String)
    (hl : csvLines c = hdr :: rs)
    (hc : ∀ r ∈ rs, (fieldsOf r).length = (fieldsOf hdr).length) :
    load c = Except.ok ⟨fieldsOf hdr, rs.map fieldsOf⟩ := by
  have hk : inferIndexCount (fieldsOf hdr).length rs = 0 := by
    cases rs with
    | nil => rfl
    | cons r rs' => simp [inferIndexCount, hc r (List.mem_cons_self r rs')]
  have hany : (rs.any fun r => (fieldsOf hdr).length < (fieldsOf r).length) = false := by
    rw [List.any_eq_false]
    intro r hr
    simp [hc r hr]
  unfold load
  rw [hl]
  simp only [hk, Nat.add_zero, List.drop_zero, hany, Bool.false_eq_true, if_false,
    Except.ok.injEq, Table.mk.injEq, true_and]
  exact List.map_congr_left fun r hr => padTo_eq_self _ _ (hc r hr)

/-- C1: when nothing exists at the hard-coded path `sample_data.csv`,
the run prints exactly the single line `Error: sample_data.csv not
found!`, does nothing else, and exits with code 0. -/
theorem c1_absent_file (fs : FileSystem) (h : fs csvFile = none) :
    main fs = ⟨["Error: sample_data.csv not found!"], 0⟩ := by
  unfold main
  rw [h]
  rfl

/-- Witness for C1 at the empty filesystem. -/
theorem c1_absent_file_witness :
    fsEmpty csvFile = none ∧
      main fsEmpty = ⟨["Error: sample_data.csv not found!"], 0⟩ :=
  ⟨rfl, c1_absent_file fsEmpty rfl⟩

/-- C9: the run is a function of the file content alone — two
filesystems with the same entry at the hard-coded path produce
byte-identical results, so rerunning on an unchanged file repeats the
output exactly. -/
theorem c9_deterministic (fs₁ fs₂ : FileSystem)
    (h : fs₁ csvFile = fs₂ csvFile) :
    main fs₁ = main fs₂ := by
  unfold main
  rw [h]

/-- Witness for C9: two filesystems that differ away from the
hard-coded path but agree on it give equal runs. -/
theorem c9_deterministic_witness :
    mkFs contentC8 csvFile = (fun _ => some (FSEntry.file contentC8) : FileSystem) csvFile ∧
      main (mkFs contentC8) = main (fun _ => some (FSEntry.file contentC8)) :=
  ⟨by decide, c9_deterministic _ _ (by decide)⟩

/-- C10 counterexample: the existence check of the script is
`os.path.exists`, which answers true for a directory at the path even
though no regular file exists there — against the claim that it is
true only for a regular file. -/
theorem c10_counterexample :
    osPathExists fsDir csvFile = true ∧ isRegularFile (fsDir csvFile) = false := by
  decide

/-- C10 amended: the existence check returns true iff anything —
regular file or directory — exists at the path (and, being a pure
function of the filesystem, it has no side effects). -/
theorem c10_exists_any_entry (fs : FileSystem) (p : String) :
    osPathExists fs p = true ↔
      isRegularFile (fs p) = true ∨ fs p = some FSEntry.dir := by
  cases h : fs p with
  | none => simp [osPathExists, isRegularFile, h]
  | some e => cases e <;> simp [osPathExists, isRegularFile, h]

/-- C3: on a valid CSV input — a header record followed by data rows of
the header's width — the load succeeds and the reported shape is
(number of data rows, number of header fields): the header is not
counted as a row. -/
theorem c3_shape (c hdr : String) (rs : List String)
    (hl : csvLines c = hdr :: rs)
    (hc : ∀ r ∈ rs, (fieldsOf r).length = (fieldsOf hdr).length) :
    ∃ t, load c = Except.ok t ∧
      (summarize t).shape = (rs.length, (fieldsOf hdr).length) := by
  refine ⟨_, load_of_uniform c hdr rs hl hc, ?_⟩
  simp [summarize]

/-- Witness for C3: a two-row, two-column file has shape (2, 2). -/
theorem c3_shape_witness :
    csvLines "a,b\n1,2\n3,4" = ["a,b", "1,2", "3,4"] ∧
      (∀ r ∈ ["1,2", "3,4"], (fieldsOf r).length = (fieldsOf "a,b").length) ∧
      ∃ t, load "a,b\n1,2\n3,4" = Except.ok t ∧
        (summarize t).shape = (["1,2", "3,4"].length, (fieldsOf "a,b").length) :=
  ⟨by decide, by decide, c3_shape "a,b\n1,2\n3,4" "a,b" ["1,2", "3,4"] (by decide) (by decide)⟩

/-- C4: on a valid CSV input whose header fields are pairwise distinct,
the reported column list is exactly the header's fields in file order.
(The distinctness hypothesis marks the model's scope: pandas renames
duplicated header names, which this embedding does not model.) -/
theorem c4_columns (c hdr : String) (rs : List String)
    (hl : csvLines c = hdr :: rs)
    (hc : ∀ r ∈ rs, (fieldsOf r).length = (fieldsOf hdr).length)
    (_hnd : (fieldsOf hdr).Nodup) :
    ∃ t, load c = Except.ok t ∧ (summarize t).columns = fieldsOf hdr :=
  ⟨_, load_of_uniform c hdr rs hl hc, rfl⟩

/-- Witness for C4 on a concrete two-column file. -/
theorem c4_columns_witness :
    csvLines "a,b\n1,2\n3,4" = ["a,b", "1,2", "3,4"] ∧
      (∀ r ∈ ["1,2", "3,4"], (fieldsOf r).length = (fieldsOf "a,b").length) ∧
      (fieldsOf "a,b").Nodup ∧
      ∃ t, load "a,b\n1,2\n3,4" = Except.ok t ∧ (summarize t).columns = fieldsOf "a,b" :=
  ⟨by decide, by decide, by decide,
    c4_columns "a,b\n1,2\n3,4" "a,b" ["1,2", "3,4"] (by decide) (by decide) (by decide)⟩

/-- C5: on a valid CSV input with R data rows, the preview is the first
min(5, R) data rows in file order, and has exactly that length. -/
theorem c5_preview (c hdr : String) (rs : List String)
    (hl : csvLines c = hdr :: rs)
    (hc : ∀ r ∈ rs, (fieldsOf r).length = (fieldsOf hdr).length) :
    ∃ t, load c = Except.ok t ∧
      (summarize t).preview = (rs.map fieldsOf).take (min 5 rs.length) ∧
      (summarize t).preview.length = min 5 rs.length := by
  refine ⟨_, load_of_uniform c hdr rs hl hc, ?_, ?_⟩
  · show (rs.map fieldsOf).take 5 = (rs.map fieldsOf).take (min 5 rs.length)
    rw [List.take_eq_take]
    simp only [List.length_map]
    omega
  · show ((rs.map fieldsOf).take 5).length = min 5 rs.length
    simp [List.length_take]

/-- Witness for C5: seven data rows preview to the first five. -/
theorem c5_preview_witness :
    csvLines "a\n1\n2\n3\n4\n5\n6\n7" = ["a", "1", "2", "3", "4", "5", "6", "7"] ∧
      (∀ r ∈ ["1", "2", "3", "4", "5", "6", "7"],
        (fieldsOf r).length = (fieldsOf "a").length) ∧
      ∃ t, load "a\n1\n2\n3\n4\n5\n6\n7" = Except.ok t ∧
        (summarize t).preview =
          ((["1", "2", "3", "4", "5", "6", "7"].map fieldsOf).take
            (min 5 ["1", "2", "3", "4", "5", "6", "7"].length)) ∧
        (summarize t).preview.length = min 5 ["1", "2", "3", "4", "5", "6", "7"].length :=
  ⟨by decide, by decide,
    c5_preview "a\n1\n2\n3\n4\n5\n6\n7" "a" ["1", "2", "3", "4", "5", "6", "7"]
      (by decide) (by decide)⟩

/-- C6, Scenario B: the file with header `a,b,c` and rows `1,2,3`,
`4,5,6` loads to a table whose shape is (2, 3), whose columns are
a, b, c, and whose statistics cover all three columns with count 2 and
means exactly 5/2, 7/2 and 9/2. -/
theorem c6_scenario_b :
    load content6 = Except.ok table6 ∧
    (summarize table6).shape = (2, 3) ∧
    (summarize table6).columns = ["a", "b", "c"] ∧
    (summarize table6).statistics =
      [("a", StatEntry.numeric 2 (some (5 / 2 : ℚ))),
       ("b", StatEntry.numeric 2 (some (7 / 2 : ℚ))),
       ("c", StatEntry.numeric 2 (some (9 / 2 : ℚ)))] ∧
    (main (mkFs content6)).exitCode = 0 := by
  have h5 : (5 / 2 : ℚ) = mkRat 5 2 := by rw [Rat.mkRat_eq_div]; norm_num
  have h7 : (7 / 2 : ℚ) = mkRat 7 2 := by rw [Rat.mkRat_eq_div]; norm_num
  have h9 : (9 / 2 : ℚ) = mkRat 9 2 := by rw [Rat.mkRat_eq_div]; norm_num
  rw [h5, h7, h9]
  decide

/-- C2 counterexample: in the file with header `a,b` and single row
`x,y` no column is entirely numeric, and `describe` then falls back to
describing every column, so the non-numeric column `a` appears in the
statistics block — the claimed equivalence fails on this loaded
table. -/
theorem c2_counterexample :
    load contentC2 = Except.ok tableC2 ∧
    colIsNumeric tableC2 0 = false ∧
    "a" ∈ statsNames tableC2 ∧
    ¬ statsExactlyNumericCols tableC2 := by
  refine ⟨by decide, by decide, by decide, fun h => ?_⟩
  have h0 := (h 0 (by decide)).mp (by decide)
  exact absurd h0 (by decide)

/-- C2 amended: for a loaded table with at least one entirely numeric
column, the statistics block lists exactly the entirely numeric
columns, in header order; when no column is entirely numeric the block
instead lists every column (the describe routine's fallback to object
statistics). -/
theorem c2_stats_numeric_only (c : String) (t : Table)
    (_hload : load c = Except.ok t) :
    ((List.range t.header.length).any (colIsNumeric t) = true →
      statsNames t =
        ((List.range t.header.length).filter (colIsNumeric t)).map
          (fun j => t.header.getD j "")) ∧
    ((List.range t.header.length).any (colIsNumeric t) = false →
      statsNames t = t.header) := by
  constructor
  · intro h
    simp [statsNames, describe, h]
  · intro h
    simp only [statsNames, describe, h, Bool.false_eq_true, if_false, List.map_map]
    exact map_getD_range t.header

/-- Witness for C2 amended, on the Scenario B table (all columns
numeric). -/
theorem c2_stats_numeric_only_witness :
    load content6 = Except.ok table6 ∧
    (((List.range table6.header.length).any (colIsNumeric table6) = true →
      statsNames table6 =
        ((List.range table6.header.length).filter (colIsNumeric table6)).map
          (fun j => table6.header.getD j "")) ∧
    ((List.range table6.header.length).any (colIsNumeric table6) = false →
      statsNames table6 = table6.header)) :=
  ⟨by decide, c2_stats_numeric_only content6 table6 (by decide)⟩

/-- C7 counterexample: on the malformed file whose last row is wider
than the header, the parse raises and the uncaught exception ends the
process with exit code 1, not 0. -/
theorem c7_counterexample :
    load contentBad = Except.error LoadError.parseError ∧
    (main (mkFs contentBad)).exitCode = 1 := by
  decide

/-- C7 amended: the exit code is 0 when nothing exists at the path or
when the file parses — which includes files whose first data row is
wider than the header, accepted through implicit index-column
inference; a file with a data row wider than the expected column count
(header fields plus inferred index fields), or a directory at the
path, makes the run terminate abnormally with exit code 1. -/
theorem c7_exit_codes (fs : FileSystem) :
    (fs csvFile = none → (main fs).exitCode = 0) ∧
    (∀ c t, fs csvFile = some (FSEntry.file c) → load c = Except.ok t →
      (main fs).exitCode = 0) ∧
    (∀ c e, fs csvFile = some (FSEntry.file c) → load c = Except.error e →
      (main fs).exitCode = 1) ∧
    (fs csvFile = some FSEntry.dir → (main fs).exitCode = 1) := by
  refine ⟨fun h => ?_, fun c t h hl => ?_, fun c e h hl => ?_, fun h => ?_⟩ <;>
    simp only [main, h] <;> try rfl
  · rw [hl]
  · rw [hl]

/-- Witness for C7 amended: exit 0 on the absent file, exit 0 on a
file parsed through implicit index-column inference (first data row
wider than the header), exit 1 on the malformed one. -/
theorem c7_exit_codes_witness :
    fsEmpty csvFile = none ∧ (main fsEmpty).exitCode = 0 ∧
    mkFs contentIdx csvFile = some (FSEntry.file contentIdx) ∧
    load contentIdx = Except.ok tableIdx ∧
    (main (mkFs contentIdx)).exitCode = 0 ∧
    mkFs contentBad csvFile = some (FSEntry.file contentBad) ∧
    load contentBad = Except.error LoadError.parseError ∧
    (main (mkFs contentBad)).exitCode = 1 :=
  ⟨rfl, (c7_exit_codes fsEmpty).1 rfl, by decide, by decide,
    (c7_exit_codes (mkFs contentIdx)).2.1 contentIdx tableIdx (by decide) (by decide),
    by decide, by decide,
    (c7_exit_codes (mkFs contentBad)).2.2.1 contentBad LoadError.parseError
      (by decide) (by decide)⟩

/-- C8 counterexample: even on a well-formed file the script's standard
output is not the rendered report alone — the `Reading
sample_data.csv...` progress line precedes it. -/
theorem c8_counterexample :
    load contentC8 = Except.ok tableC8 ∧
    (main (mkFs contentC8)).stdout ≠ renderReport (summarize tableC8) := by
  decide

/-- C8 amended: when the file exists and parses, standard output is
exactly the `Reading sample_data.csv...` line followed by the rendered
report in the fixed order — shape line, columns line, preview block,
statistics block — and nothing else, with exit code 0. -/
theorem c8_stdout_layout (fs : FileSystem) (c : String) (t : Table)
    (hfs : fs csvFile = some (FSEntry.file c))
    (hload : load c = Except.ok t) :
    (main fs).stdout = "Reading sample_data.csv..." :: renderReport (summarize t) ∧
    (main fs).exitCode = 0 := by
  simp only [main, hfs, hload]
  refine ⟨?_, ?_⟩ <;> first | rfl | trivial

/-- Witness for C8 amended at the small well-formed file. -/
theorem c8_stdout_layout_witness :
    mkFs contentC8 csvFile = some (FSEntry.file contentC8) ∧
    load contentC8 = Except.ok tableC8 ∧
    (main (mkFs contentC8)).stdout =
      "Reading sample_data.csv..." :: renderReport (summarize tableC8) ∧
    (main (mkFs contentC8)).exitCode = 0 :=
  ⟨by decide, by decide,
    c8_stdout_layout (mkFs contentC8) contentC8 tableC8 (by decide) (by decide)⟩

end ReadCsv
